import Mathlib

/-!
# SpecterSignal: sampling / alerting state machine and configuration editor

A shallow embedding of `src/specter_signal.c` (a Flipper Zero application) and
the properties of its tick handler, its key handler and its configuration
loader.

* C `float` is IEEE 754 binary32 with round-to-nearest-even (the target is a
  Cortex-M4F); it is modelled by `F32` below, with exact integer arithmetic.
* C `uint32_t` is modelled by `Nat` with an explicit reduction modulo `2 ^ 32`
  wherever the source performs arithmetic on it.
* Calls into the firmware (dialogs, storage, notifications, radio) are modelled
  as an ordered trace of `Call`s; values the firmware returns (the RSSI sample,
  the answer of the dialog, the results of decoding the configuration file) are
  inputs of the embedded functions.
* Logging (`FURI_LOG_*`), the mutex and the view-port redraw are not modelled.
-/

/-! ## IEEE 754 binary32 -/

/-- A binary32 datum: NaN, a signed infinity, or the finite value
`(-1)^neg * m * 2^e`.  A finite datum of the format has `m < 2 ^ 24` and
`-149 ≤ e ≤ 104` (see `F32.wf`); the arithmetic operations below return such
data (`F32.add_wf`, `F32.sub_wf`, `F32.mul_wf`). -/
inductive F32 where
  | nan : F32
  | inf (neg : Bool) : F32
  | fin (neg : Bool) (m : Nat) (e : Int) : F32
deriving DecidableEq, Repr

namespace F32

/-- The finite data that belong to the binary32 format. -/
def wf : F32 → Bool
  | nan => true
  | inf _ => true
  | fin _ m e => decide (m < 2 ^ 24) && decide (-149 ≤ e) && decide (e ≤ 104)

/-- Worker of `ilog2`: structural in the first argument. -/
def log2Aux : Nat → Nat → Nat
  | 0, _ => 0
  | fuel + 1, n => if 2 ≤ n then log2Aux fuel (n / 2) + 1 else 0

/-- Position of the leading bit of `n` (floor of the binary logarithm), `0` for `n = 0`. -/
def ilog2 (n : Nat) : Nat := log2Aux n n

/-- Exponent of the unit in the last place for the exact value `n * 2^e`
(`n ≠ 0`): 24 significant bits, but never below the subnormal quantum `2^-149`. -/
def quantum (n : Nat) (e : Int) : Int := max (e + (ilog2 n : Int) - 23) (-149)

/-- The integer nearest to `n * 2^e / 2^q`, ties to even. -/
def significand (n : Nat) (e q : Int) : Nat :=
  if q ≤ e then n * 2 ^ (e - q).toNat
  else
    let m0 := n / 2 ^ (q - e).toNat
    let r := n % 2 ^ (q - e).toNat
    let half := 2 ^ ((q - e).toNat - 1)
    if half < r ∨ (r = half ∧ m0 % 2 = 1) then m0 + 1 else m0

/-- Round the exact value `(-1)^neg * n * 2^e` to binary32, to nearest, ties to
even; a result of magnitude `2^128` or more is an infinity. -/
def round (neg : Bool) (n : Nat) (e : Int) : F32 :=
  if n = 0 then fin neg 0 0
  else if significand n e (quantum n e) = 2 ^ 24 then
    (if 104 < quantum n e + 1 then inf neg else fin neg (2 ^ 23) (quantum n e + 1))
  else if 104 < quantum n e then inf neg
  else fin neg (significand n e (quantum n e)) (quantum n e)

/-- The signed integer `(-1)^neg * m * 2^k`. -/
def sval (neg : Bool) (m : Nat) (k : Nat) : Int :=
  if neg then -((m * 2 ^ k : Nat) : Int) else ((m * 2 ^ k : Nat) : Int)

/-- Unary minus. -/
def neg : F32 → F32
  | nan => nan
  | inf a => inf (!a)
  | fin a m e => fin (!a) m e

/-- Binary32 addition `a + b`: the exact sum, rounded. -/
def add : F32 → F32 → F32
  | nan, _ => nan
  | _, nan => nan
  | inf a, inf b => if a = b then inf a else nan
  | inf a, fin _ _ _ => inf a
  | fin _ _ _, inf b => inf b
  | fin n1 m1 e1, fin n2 m2 e2 =>
    let emin := min e1 e2
    let s : Int := sval n1 m1 (e1 - emin).toNat + sval n2 m2 (e2 - emin).toNat
    if s = 0 then fin (n1 && n2) 0 0
    else round (decide (s < 0)) s.natAbs emin

/-- Binary32 subtraction `a - b`. -/
def sub (a b : F32) : F32 := add a (neg b)

/-- Binary32 multiplication `a * b`: the exact product, rounded. -/
def mul : F32 → F32 → F32
  | nan, _ => nan
  | _, nan => nan
  | inf a, inf b => inf (xor a b)
  | inf a, fin b m _ => if m = 0 then nan else inf (xor a b)
  | fin a m _, inf b => if m = 0 then nan else inf (xor a b)
  | fin n1 m1 e1, fin n2 m2 e2 => round (xor n1 n2) (m1 * m2) (e1 + e2)

/-- The C comparison `a > b` (false as soon as one side is NaN). -/
def gt : F32 → F32 → Bool
  | nan, _ => false
  | _, nan => false
  | inf a, inf b => !a && b
  | inf a, fin _ _ _ => !a
  | fin _ _ _, inf b => b
  | fin n1 m1 e1, fin n2 m2 e2 =>
    decide (sval n2 m2 (e2 - min e1 e2).toNat < sval n1 m1 (e1 - min e1 e2).toNat)

/-- The C comparison `a == b` (false as soon as one side is NaN, true on `+0 == -0`). -/
def eq : F32 → F32 → Bool
  | nan, _ => false
  | _, nan => false
  | inf a, inf b => a == b
  | inf _, fin _ _ _ => false
  | fin _ _ _, inf _ => false
  | fin n1 m1 e1, fin n2 m2 e2 =>
    decide (sval n1 m1 (e1 - min e1 e2).toNat = sval n2 m2 (e2 - min e1 e2).toNat)

/-- The C conversion `(uint32_t)a`: truncation toward zero; `none` where the
truncated value does not fit (undefined behaviour in C). -/
def toUInt32 : F32 → Option Nat
  | nan => none
  | inf _ => none
  | fin a m e =>
    let t : Nat := if 0 ≤ e then m * 2 ^ e.toNat else m / 2 ^ (-e).toNat
    if t = 0 then some 0
    else if a then none
    else if t < 2 ^ 32 then some t
    else none

/-- The exact rational value of a finite datum. -/
def toRat : F32 → Option ℚ
  | nan => none
  | inf _ => none
  | fin a m e => some ((if a then -1 else 1) * (m : ℚ) * (2 : ℚ) ^ e)

/-- The literal `1.0f`. -/
def one : F32 := fin false 8388608 (-23)

/-- The literal `0.1f` (the binary32 nearest to one tenth). -/
def tenth : F32 := fin false 13421773 (-27)

/-- The `int` constant `1000000` converted to `float`. -/
def million : F32 := fin false 16000000 (-4)

/-- The literal `433.92f`. -/
def c433_92 : F32 := fin false 14218691 (-15)

/-- The literal `915.0f`. -/
def c915 : F32 := fin false 14991360 (-14)

/-- The literal `-60.0f`. -/
def cm60 : F32 := fin true 15728640 (-18)

/-- Positive zero, `0.0f`. -/
def zero : F32 := fin false 0 0

end F32

/-! ## Data model (`specter_signal.c`, lines 14-57) -/

/-- `#define MAX_FREQUENCIES 5`. -/
def MAX_FREQUENCIES : Nat := 5

/-- Reduction of a natural number to the range of `uint32_t`. -/
def u32 (x : Nat) : Nat := x % 2 ^ 32

/-- `SpecterSignalConfig`.  `frequencies` is the C array `float[MAX_FREQUENCIES]`
(a list of length `MAX_FREQUENCIES`), `num_frequencies` is a `uint32_t`. -/
structure SpecterSignalConfig where
  frequencies : List F32
  num_frequencies : Nat
  threshold : F32
  visual_alert : Bool
  vibration_alert : Bool
deriving DecidableEq, Repr

/-- `ViewType`. -/
inductive ViewType where
  | ViewMain
  | ViewConfig
deriving DecidableEq, Repr

/-- `SpecterSignalState`, without the firmware handles (`mutex`, `event_queue`,
`timer`, `notifications`, `subghz_worker`).  `selected_item` and
`current_frequency_index` are `uint32_t`. -/
structure SpecterSignalState where
  current_view : ViewType
  config : SpecterSignalConfig
  current_signal : F32
  alert_active : Bool
  selected_item : Nat
  current_frequency_index : Nat
  settings_changed : Bool
deriving DecidableEq, Repr

/-- `EventType`. -/
inductive EventType where
  | EventTypeTick
  | EventTypeKey
deriving DecidableEq, Repr

/-- `InputType` of the firmware header `input/input.h`. -/
inductive InputType where
  | InputTypePress
  | InputTypeRelease
  | InputTypeShort
  | InputTypeLong
  | InputTypeRepeat
deriving DecidableEq, Repr

/-- `InputKey` of the firmware header `input/input.h`. -/
inductive InputKey where
  | InputKeyUp
  | InputKeyDown
  | InputKeyRight
  | InputKeyLeft
  | InputKeyOk
  | InputKeyBack
deriving DecidableEq, Repr

/-- `InputEvent` of the firmware: the fields the application reads. -/
structure InputEvent where
  type : InputType
  key : InputKey
deriving DecidableEq, Repr

/-- `SpecterSignalEvent`. -/
structure SpecterSignalEvent where
  type : EventType
  input : InputEvent
deriving DecidableEq, Repr

/-- The two notification sequences the application sends. -/
inductive NotificationSequence where
  | sequence_blink_red_100
  | sequence_single_vibro
deriving DecidableEq, Repr

/-- One call into the firmware or into a storing / asking helper of the
application, with the data it is given.  `furi_hal_subghz_set_frequency`
carries the converted `uint32_t` argument, `none` where the C expression that
computes it has no defined value. -/
inductive Call where
  | save_baseline (config : SpecterSignalConfig)
  | show_save_prompt
  | save_config (config : SpecterSignalConfig)
  | notification_message (seq : NotificationSequence)
  | furi_hal_subghz_idle
  | furi_hal_subghz_set_frequency (value : Option Nat)
  | furi_hal_subghz_rx
deriving DecidableEq, Repr

open ViewType EventType InputType InputKey NotificationSequence

/-! ## Key handling (`specter_signal_process_input`, lines 210-265) -/

/-- The compound assignment `frequencies[i] = f(frequencies[i])`.  An index
outside the array (undefined behaviour in C) leaves the list as it is. -/
def update_frequency (frequencies : List F32) (i : Nat) (f : F32 → F32) : List F32 :=
  match frequencies[i]? with
  | some x => frequencies.set i (f x)
  | none => frequencies

/-- The block `if(state->settings_changed) { if(show_save_prompt()) { save_config(state); } }`
of lines 249-253 and 257-261; `prompt` is what `show_save_prompt` returns when
it is called. -/
def prompt_and_save (prompt : Bool) (state : SpecterSignalState) : List Call :=
  if state.settings_changed then
    if prompt then [Call.show_save_prompt, Call.save_config state.config]
    else [Call.show_save_prompt]
  else []

/-- `specter_signal_process_input`: the new state and the calls made, in order.
`prompt` is the answer of the dialog, used only if the dialog is shown. -/
def specter_signal_process_input (prompt : Bool) (state : SpecterSignalState)
    (input : InputEvent) : SpecterSignalState × List Call :=
  match state.current_view with
  | ViewMain =>
    if input.type = InputTypeShort ∧ input.key = InputKeyOk then
      ({ state with current_view := ViewConfig, selected_item := 0, settings_changed := false }, [])
    else if input.type = InputTypeShort ∧ input.key = InputKeyUp then
      (state, [Call.save_baseline state.config])
    else (state, [])
  | ViewConfig =>
    if input.type = InputTypeShort ∧ input.key = InputKeyUp then
      if state.selected_item > 0 then
        ({ state with selected_item := state.selected_item - 1 }, [])
      else (state, [])
    else if input.type = InputTypeShort ∧ input.key = InputKeyDown then
      if state.selected_item < u32 (state.config.num_frequencies + 3) then
        ({ state with selected_item := u32 (state.selected_item + 1) }, [])
      else (state, [])
    else if input.type = InputTypeShort ∧ input.key = InputKeyRight then
      let state := { state with settings_changed := true }
      if state.selected_item < state.config.num_frequencies then
        ({ state with config := { state.config with
            frequencies := update_frequency state.config.frequencies state.selected_item
              (fun x => F32.add x F32.tenth) } }, [])
      else if state.selected_item = state.config.num_frequencies then
        ({ state with config := { state.config with
            threshold := F32.add state.config.threshold F32.one } }, [])
      else if state.selected_item = u32 (state.config.num_frequencies + 1) then
        ({ state with config := { state.config with
            visual_alert := !state.config.visual_alert } }, [])
      else if state.selected_item = u32 (state.config.num_frequencies + 2) then
        ({ state with config := { state.config with
            vibration_alert := !state.config.vibration_alert } }, [])
      else (state, [])
    else if input.type = InputTypeShort ∧ input.key = InputKeyLeft then
      let state := { state with settings_changed := true }
      if state.selected_item < state.config.num_frequencies then
        ({ state with config := { state.config with
            frequencies := update_frequency state.config.frequencies state.selected_item
              (fun x => F32.sub x F32.tenth) } }, [])
      else if state.selected_item = state.config.num_frequencies then
        ({ state with config := { state.config with
            threshold := F32.sub state.config.threshold F32.one } }, [])
      else if state.selected_item = u32 (state.config.num_frequencies + 1) then
        ({ state with config := { state.config with
            visual_alert := !state.config.visual_alert } }, [])
      else if state.selected_item = u32 (state.config.num_frequencies + 2) then
        ({ state with config := { state.config with
            vibration_alert := !state.config.vibration_alert } }, [])
      else (state, [])
    else if input.type = InputTypeShort ∧ input.key = InputKeyOk then
      if state.selected_item = u32 (state.config.num_frequencies + 3) then
        ({ state with current_view := ViewMain }, prompt_and_save prompt state)
      else (state, [])
    else if input.type = InputTypeShort ∧ input.key = InputKeyBack then
      ({ state with current_view := ViewMain }, prompt_and_save prompt state)
    else (state, [])

/-! ## The event loop of `specter_signal_app` (lines 387-433) -/

/-- The `EventTypeTick` branch (lines 403-430); `rssi` is what
`furi_hal_subghz_get_rssi` returns at this tick. -/
def specter_signal_app_tick (rssi : F32) (state : SpecterSignalState) :
    SpecterSignalState × List Call :=
  let state := { state with current_signal := rssi }
  let state := { state with
    alert_active := F32.gt state.current_signal state.config.threshold }
  let alerts : List Call :=
    if state.alert_active then
      (if state.config.visual_alert then
        [Call.notification_message sequence_blink_red_100] else []) ++
      (if state.config.vibration_alert then
        [Call.notification_message sequence_single_vibro] else [])
    else []
  if state.config.num_frequencies > 0 then
    let state := { state with
      current_frequency_index :=
        u32 (state.current_frequency_index + 1) % state.config.num_frequencies }
    (state, alerts ++
      [Call.furi_hal_subghz_idle,
       Call.furi_hal_subghz_set_frequency
         ((state.config.frequencies[state.current_frequency_index]?).bind
           (fun f => F32.toUInt32 (F32.mul f F32.million))),
       Call.furi_hal_subghz_rx])
  else (state, alerts)

/-- One iteration of the `while(running)` loop on a received event: the new
state, the new value of `running`, and the calls made. -/
def specter_signal_app_step (rssi : F32) (prompt : Bool) (state : SpecterSignalState)
    (event : SpecterSignalEvent) : SpecterSignalState × Bool × List Call :=
  match event.type with
  | EventTypeKey =>
    if event.input.type = InputTypeShort ∧ event.input.key = InputKeyBack ∧
        state.current_view = ViewMain then
      (state, false, [])
    else
      let r := specter_signal_process_input prompt state event.input
      (r.1, true, r.2)
  | EventTypeTick =>
    let r := specter_signal_app_tick rssi state
    (r.1, true, r.2)

/-- What the firmware answers during one iteration of the loop: the RSSI
sample (read on a tick) and the answer of the dialog (read if it is shown). -/
structure Answers where
  rssi : F32
  prompt : Bool
deriving DecidableEq, Repr

/-- The `while(running)` loop on a finite sequence of events, each with the
answers of the firmware during its processing; the loop stops at the first
event that clears `running`. -/
def specter_signal_app_loop : SpecterSignalState → List (SpecterSignalEvent × Answers) →
    SpecterSignalState × List Call
  | state, [] => (state, [])
  | state, (event, a) :: rest =>
    let r := specter_signal_app_step a.rssi a.prompt state event
    if r.2.1 then
      let r2 := specter_signal_app_loop r.1 rest
      (r2.1, r.2.2 ++ r2.2)
    else (r.1, r.2.2)

/-! ## Configuration loading at startup (`specter_signal_app`, lines 329-350) -/

/-- The results of the `flipper_format_read_*` calls on an opened configuration
file: `none` where the call fails, in which case the destination is left as it
was.  `read_Frequencies n` is the result of reading `n` floats. -/
structure ConfigFile where
  read_NumFrequencies : Option Nat
  read_Frequencies : Nat → Option (List F32)
  read_Threshold : Option F32
  read_VisualAlert : Option Bool
  read_VibrationAlert : Option Bool

/-- Store `data` into the leading cells of a C array; cells beyond the end of
the array are not modelled. -/
def write_floats : List F32 → List F32 → List F32
  | [], _ => []
  | a :: as, [] => a :: as
  | _ :: as, d :: ds => d :: write_floats as ds

/-- Lines 329-350: `config` is the content of `state->config` as `malloc` left
it; `file` is `none` when `flipper_format_file_open_existing` fails. -/
def specter_signal_app_load_config (config : SpecterSignalConfig) (file : Option ConfigFile) :
    SpecterSignalConfig :=
  match file with
  | some f =>
    let config := match f.read_NumFrequencies with
      | some n => { config with num_frequencies := u32 n }
      | none => config
    let config := match f.read_Frequencies config.num_frequencies with
      | some data => { config with frequencies := write_floats config.frequencies data }
      | none => config
    let config := match f.read_Threshold with
      | some t => { config with threshold := t }
      | none => config
    let config := match f.read_VisualAlert with
      | some b => { config with visual_alert := b }
      | none => config
    let config := match f.read_VibrationAlert with
      | some b => { config with vibration_alert := b }
      | none => config
    config
  | none =>
    let config := { config with num_frequencies := 2 }
    let config := { config with frequencies := config.frequencies.set 0 F32.c433_92 }
    let config := { config with frequencies := config.frequencies.set 1 F32.c915 }
    let config := { config with threshold := F32.cm60 }
    let config := { config with visual_alert := true }
    let config := { config with vibration_alert := true }
    config

/-- The state of lines 323-350: fields set at startup, configuration loaded.
`mem` is the content of the allocated block before initialisation. -/
def specter_signal_app_init (mem : SpecterSignalState) (file : Option ConfigFile) :
    SpecterSignalState :=
  { mem with
    current_view := ViewMain
    alert_active := false
    selected_item := 0
    current_frequency_index := 0
    settings_changed := false
    config := specter_signal_app_load_config mem.config file }

/-! ## Observations on traces and event sequences -/

/-- The notification sequences sent in a trace, in order. -/
def notifications : List Call → List NotificationSequence
  | [] => []
  | Call.notification_message seq :: rest => seq :: notifications rest
  | _ :: rest => notifications rest

/-- The calls of a trace that reach the radio (`furi_hal_subghz_idle`,
`furi_hal_subghz_set_frequency`, `furi_hal_subghz_rx`), in order. -/
def radio_calls : List Call → List Call
  | [] => []
  | Call.furi_hal_subghz_idle :: rest => Call.furi_hal_subghz_idle :: radio_calls rest
  | Call.furi_hal_subghz_set_frequency v :: rest =>
    Call.furi_hal_subghz_set_frequency v :: radio_calls rest
  | Call.furi_hal_subghz_rx :: rest => Call.furi_hal_subghz_rx :: radio_calls rest
  | _ :: rest => radio_calls rest

/-- Number of times the confirmation dialog is shown in a trace. -/
def prompt_count (calls : List Call) : Nat := calls.count Call.show_save_prompt

/-- The configurations handed to `save_config` in a trace, in order. -/
def saved_configs : List Call → List SpecterSignalConfig
  | [] => []
  | Call.save_config c :: rest => c :: saved_configs rest
  | _ :: rest => saved_configs rest

/-- A short press of `key`, as delivered by the input callback. -/
def short_key (key : InputKey) : SpecterSignalEvent :=
  { type := EventTypeKey, input := { type := InputTypeShort, key := key } }

/-- A timer tick, as queued by `specter_signal_tick` (its `input` is not read). -/
def tick_event : SpecterSignalEvent :=
  { type := EventTypeTick, input := { type := InputTypePress, key := InputKeyUp } }

/-- An event sequence made of timer ticks only. -/
def all_ticks (events : List (SpecterSignalEvent × Answers)) : Prop :=
  ∀ p ∈ events, p.1.type = EventTypeTick

/-- An event sequence made of short presses of Up and Down only. -/
def up_down_keys (events : List (SpecterSignalEvent × Answers)) : Prop :=
  ∀ p ∈ events, p.1 = short_key InputKeyUp ∨ p.1 = short_key InputKeyDown

/-- An event sequence that holds no short press of OK (ticks and every other
key event are allowed). -/
def no_short_ok (events : List (SpecterSignalEvent × Answers)) : Prop :=
  ∀ p ∈ events, ¬ (p.1.type = EventTypeKey ∧ p.1.input.type = InputTypeShort ∧
    p.1.input.key = InputKeyOk)

/-- The default configuration of lines 342-347 on the cells it assigns:
two frequencies `433.92` and `915.0`, threshold `-60.0`, both alert modes on. -/
def is_default_config (config : SpecterSignalConfig) : Prop :=
  config.num_frequencies = 2 ∧
  config.frequencies.take 2 = [F32.c433_92, F32.c915] ∧
  config.threshold = F32.cm60 ∧
  config.visual_alert = true ∧
  config.vibration_alert = true

instance (config : SpecterSignalConfig) : Decidable (is_default_config config) := by
  unfold is_default_config
  infer_instance

/-- Three short presses of Right in a row, with the answers `prompt` of the dialog. -/
def press_right_three_times (prompt : Bool) (state : SpecterSignalState) : SpecterSignalState :=
  (specter_signal_process_input prompt
    (specter_signal_process_input prompt
      (specter_signal_process_input prompt state
        { type := InputTypeShort, key := InputKeyRight }).1
      { type := InputTypeShort, key := InputKeyRight }).1
    { type := InputTypeShort, key := InputKeyRight }).1

/-! ## States, files and inputs used as examples -/

/-- A state with no configured frequency, in alert-free condition. -/
def state_no_frequencies : SpecterSignalState :=
  { current_view := ViewMain,
    config := { frequencies := [F32.zero, F32.zero, F32.zero, F32.zero, F32.zero],
                num_frequencies := 0, threshold := F32.cm60,
                visual_alert := true, vibration_alert := false },
    current_signal := F32.zero, alert_active := false, selected_item := 0,
    current_frequency_index := 0, settings_changed := false }

/-- The scenario of the specification: two frequencies, rotation index `1`. -/
def state_two_frequencies : SpecterSignalState :=
  { current_view := ViewMain,
    config := { frequencies := [F32.c433_92, F32.c915, F32.zero, F32.zero, F32.zero],
                num_frequencies := 2, threshold := F32.cm60,
                visual_alert := true, vibration_alert := true },
    current_signal := F32.zero, alert_active := false, selected_item := 0,
    current_frequency_index := 1, settings_changed := false }

/-- Config view, two frequencies, cursor on the first item, nothing edited. -/
def state_config_top : SpecterSignalState :=
  { current_view := ViewConfig,
    config := { frequencies := [F32.c433_92, F32.c915, F32.zero, F32.zero, F32.zero],
                num_frequencies := 2, threshold := F32.cm60,
                visual_alert := true, vibration_alert := true },
    current_signal := F32.zero, alert_active := false, selected_item := 0,
    current_frequency_index := 0, settings_changed := false }

/-- Config view, two frequencies, cursor on the Back item, an edit pending. -/
def state_config_dirty : SpecterSignalState :=
  { current_view := ViewConfig,
    config := { frequencies := [F32.c433_92, F32.c915, F32.zero, F32.zero, F32.zero],
                num_frequencies := 2, threshold := F32.cm60,
                visual_alert := true, vibration_alert := true },
    current_signal := F32.zero, alert_active := false, selected_item := 5,
    current_frequency_index := 0, settings_changed := true }

/-- Config view, default configuration (two frequencies), cursor on item
`item`, nothing edited. -/
def state_config_cursor (item : Nat) : SpecterSignalState :=
  { current_view := ViewConfig,
    config := { frequencies := [F32.c433_92, F32.c915, F32.zero, F32.zero, F32.zero],
                num_frequencies := 2, threshold := F32.cm60,
                visual_alert := true, vibration_alert := true },
    current_signal := F32.zero, alert_active := false, selected_item := item,
    current_frequency_index := 0, settings_changed := false }

/-- An allocated block that holds zero bytes: no frequency, threshold `0.0`,
both alert modes off. -/
def config_memory_zero : SpecterSignalConfig :=
  { frequencies := [F32.zero, F32.zero, F32.zero, F32.zero, F32.zero],
    num_frequencies := 0, threshold := F32.zero,
    visual_alert := false, vibration_alert := false }

/-- An allocated state block that holds zero bytes. -/
def state_memory_zero : SpecterSignalState :=
  { current_view := ViewMain, config := config_memory_zero, current_signal := F32.zero,
    alert_active := false, selected_item := 0, current_frequency_index := 0,
    settings_changed := false }

/-- A configuration file that opens and holds the default values, except that
its `Threshold` entry cannot be decoded. -/
def config_file_bad_threshold : ConfigFile :=
  { read_NumFrequencies := some 2,
    read_Frequencies := fun n => if n = 2 then some [F32.c433_92, F32.c915] else none,
    read_Threshold := none,
    read_VisualAlert := some true,
    read_VibrationAlert := some true }

/-- A configuration file that opens but of which no entry can be decoded. -/
def config_file_unreadable : ConfigFile :=
  { read_NumFrequencies := none,
    read_Frequencies := fun _ => none,
    read_Threshold := none,
    read_VisualAlert := none,
    read_VibrationAlert := none }

/-- Config view, two frequencies, cursor on the Threshold item, threshold
`16777215.0` (`2^24 - 1`, a binary32 value), nothing edited. -/
def state_config_threshold_big : SpecterSignalState :=
  { current_view := ViewConfig,
    config := { frequencies := [F32.c433_92, F32.c915, F32.zero, F32.zero, F32.zero],
                num_frequencies := 2, threshold := F32.fin false 16777215 0,
                visual_alert := true, vibration_alert := true },
    current_signal := F32.zero, alert_active := false, selected_item := 2,
    current_frequency_index := 0, settings_changed := false }

/-! ## Facts about the binary32 model -/

namespace F32

theorem eq_true_gt_false (a b : F32) (h : eq a b = true) : gt a b = false := by
  cases a <;> cases b <;> simp_all [eq, gt]

theorem log2Aux_spec : ∀ fuel n : Nat, n ≤ fuel → 0 < n →
    2 ^ log2Aux fuel n ≤ n ∧ n < 2 ^ (log2Aux fuel n + 1) := by
  intro fuel
  induction fuel with
  | zero =>
    intro n h0 hpos
    omega
  | succ fuel ih =>
    intro n hle hpos
    unfold log2Aux
    by_cases h2 : 2 ≤ n
    · simp only [h2, if_true]
      obtain ⟨hlo, hhi⟩ := ih (n / 2) (by omega) (by omega)
      constructor
      · rw [pow_succ]
        omega
      · rw [pow_succ]
        omega
    · simp only [h2, if_false]
      omega

theorem ilog2_spec (n : Nat) (hpos : 0 < n) :
    2 ^ ilog2 n ≤ n ∧ n < 2 ^ (ilog2 n + 1) :=
  log2Aux_spec n n (le_refl n) hpos

theorem two_zpow_pos (e : Int) : (0 : ℚ) < (2 : ℚ) ^ e := zpow_pos (by norm_num) e

theorem two_zpow_add (a b : Int) : (2 : ℚ) ^ (a + b) = (2 : ℚ) ^ a * (2 : ℚ) ^ b :=
  zpow_add₀ (by norm_num) a b

theorem two_zpow_toNat (k : Int) (hk : 0 ≤ k) : ((2 ^ k.toNat : Nat) : ℚ) = (2 : ℚ) ^ k := by
  rw [Nat.cast_pow, Nat.cast_ofNat, ← zpow_natCast, Int.toNat_of_nonneg hk]

theorem two_zpow_mono (a b : Int) (h : a ≤ b) : (2 : ℚ) ^ a ≤ (2 : ℚ) ^ b :=
  zpow_le_zpow_right₀ (by norm_num) h

/-- Rounding leaves a value of the format as it is. -/
theorem round_exact (s : Bool) (n : Nat) (e : Int) (m' : Nat) (e' : Int)
    (hm : m' < 2 ^ 24) (he1 : -149 ≤ e') (he2 : e' ≤ 104)
    (hv : (n : ℚ) * (2 : ℚ) ^ e = (m' : ℚ) * (2 : ℚ) ^ e') :
    toRat (round s n e) = some ((if s then -1 else 1) * (n : ℚ) * (2 : ℚ) ^ e) := by
  by_cases hn : n = 0
  · subst hn
    simp [round, toRat]
  obtain ⟨hlo, hhi⟩ := ilog2_spec n (Nat.pos_of_ne_zero hn)
  have hloQ : (2 : ℚ) ^ (ilog2 n : Int) ≤ (n : ℚ) := by
    rw [zpow_natCast]
    exact_mod_cast hlo
  have hhiQ : (n : ℚ) < (2 : ℚ) ^ ((ilog2 n : Int) + 1) := by
    have : ((ilog2 n : Int) + 1) = ((ilog2 n + 1 : Nat) : Int) := by push_cast; ring
    rw [this, zpow_natCast]
    exact_mod_cast hhi
  have hmQ : (m' : ℚ) < (2 : ℚ) ^ (24 : Int) := by
    have : ((24 : Nat) : Int) = 24 := rfl
    rw [← this, zpow_natCast]
    exact_mod_cast hm
  -- the quantum is not above the exponent of the given representation
  have hq1 : e + (ilog2 n : Int) - 23 ≤ quantum n e := le_max_left _ _
  have hq2 : (-149 : Int) ≤ quantum n e := le_max_right _ _
  have hq3 : quantum n e ≤ e' := by
    unfold quantum
    apply max_le _ he1
    by_contra hcon
    have hcon2 : e' + 24 ≤ e + (ilog2 n : Int) := by omega
    have h1 : (m' : ℚ) * (2 : ℚ) ^ e' < (2 : ℚ) ^ (24 : Int) * (2 : ℚ) ^ e' :=
      mul_lt_mul_of_pos_right hmQ (two_zpow_pos e')
    have h2 : (2 : ℚ) ^ (24 : Int) * (2 : ℚ) ^ e' = (2 : ℚ) ^ (e' + 24) := by
      rw [two_zpow_add, mul_comm]
    have h3 : (2 : ℚ) ^ (e' + 24) ≤ (2 : ℚ) ^ (e + (ilog2 n : Int)) := two_zpow_mono _ _ hcon2
    have h4 : (2 : ℚ) ^ (e + (ilog2 n : Int)) ≤ (n : ℚ) * (2 : ℚ) ^ e := by
      rw [two_zpow_add, mul_comm]
      exact mul_le_mul_of_nonneg_right hloQ (le_of_lt (two_zpow_pos e))
    linarith
  unfold round
  rw [if_neg hn]
  generalize quantum n e = q at hq1 hq2 hq3 ⊢
  -- the significand of the value at that quantum
  have hMq : ((m' * 2 ^ (e' - q).toNat : Nat) : ℚ) * (2 : ℚ) ^ (q)
      = (n : ℚ) * (2 : ℚ) ^ e := by
    rw [Nat.cast_mul, two_zpow_toNat _ (by omega), mul_assoc, ← two_zpow_add, hv]
    congr 2
    omega
  have hMlt : m' * 2 ^ (e' - q).toNat < 2 ^ 24 := by
    have h1 : (n : ℚ) * (2 : ℚ) ^ e < (2 : ℚ) ^ ((ilog2 n : Int) + 1) * (2 : ℚ) ^ e :=
      mul_lt_mul_of_pos_right hhiQ (two_zpow_pos e)
    have h2 : (2 : ℚ) ^ ((ilog2 n : Int) + 1) * (2 : ℚ) ^ e
        ≤ (2 : ℚ) ^ (24 : Int) * (2 : ℚ) ^ (q) := by
      rw [← two_zpow_add, ← two_zpow_add]
      exact two_zpow_mono _ _ (by omega)
    have h3 : ((m' * 2 ^ (e' - q).toNat : Nat) : ℚ) < (2 : ℚ) ^ (24 : Int) := by
      have := lt_of_lt_of_le (hMq ▸ h1) h2
      exact lt_of_mul_lt_mul_right this (le_of_lt (two_zpow_pos _))
    have : ((24 : Nat) : Int) = 24 := rfl
    rw [← this, zpow_natCast] at h3
    exact_mod_cast h3
  have hsig : significand n e (q) = m' * 2 ^ (e' - q).toNat := by
    unfold significand
    by_cases hqe : q ≤ e
    · simp only [hqe, if_true]
      have : ((n * 2 ^ (e - q).toNat : Nat) : ℚ) * (2 : ℚ) ^ (q)
          = ((m' * 2 ^ (e' - q).toNat : Nat) : ℚ) * (2 : ℚ) ^ (q) := by
        rw [hMq, Nat.cast_mul, two_zpow_toNat _ (by omega), mul_assoc, ← two_zpow_add]
        congr 2
        omega
      have := mul_right_cancel₀ (ne_of_gt (two_zpow_pos _)) this
      exact_mod_cast this
    · simp only [hqe, if_false]
      have hnM : n = m' * 2 ^ (e' - q).toNat * 2 ^ (q - e).toNat := by
        have : (n : ℚ) * (2 : ℚ) ^ e
            = ((m' * 2 ^ (e' - q).toNat * 2 ^ (q - e).toNat : Nat) : ℚ)
              * (2 : ℚ) ^ e := by
          rw [← hMq, Nat.cast_mul _ (2 ^ (q - e).toNat),
            two_zpow_toNat _ (by omega), mul_assoc, ← two_zpow_add]
          congr 2
          omega
        have := mul_right_cancel₀ (ne_of_gt (two_zpow_pos _)) this
        exact_mod_cast this
      have hpos : 0 < 2 ^ (q - e).toNat := pow_pos (by norm_num) _
      have hdiv : n / 2 ^ (q - e).toNat = m' * 2 ^ (e' - q).toNat := by
        conv_lhs => rw [hnM]
        exact Nat.mul_div_cancel _ hpos
      have hmod : n % 2 ^ (q - e).toNat = 0 := by
        conv_lhs => rw [hnM]
        exact Nat.mul_mod_left _ _
      have hhalf : 0 < 2 ^ ((q - e).toNat - 1) := pow_pos (by norm_num) _
      simp only [hmod, hdiv]
      rw [if_neg]
      intro h
      rcases h with h | ⟨h, _⟩ <;> omega
  rw [hsig, if_neg (by omega), if_neg (by omega)]
  simp only [toRat]
  rw [mul_assoc, hMq, mul_assoc]

theorem sval_scaled (a : Bool) (m : Nat) (e emin : Int) (h : emin ≤ e) :
    ((sval a m (e - emin).toNat : Int) : ℚ) * (2 : ℚ) ^ emin
      = (if a then -1 else 1) * (m : ℚ) * (2 : ℚ) ^ e := by
  have hp : (2 : ℚ) ^ (e - emin).toNat * (2 : ℚ) ^ emin = (2 : ℚ) ^ e := by
    rw [← zpow_natCast, Int.toNat_of_nonneg (by omega), ← two_zpow_add]
    congr 1
    omega
  unfold sval
  cases a
  · simp only [Bool.false_eq_true, if_false]
    push_cast
    rw [mul_assoc, hp, one_mul]
  · simp only [if_true]
    push_cast
    rw [neg_mul, mul_assoc, hp]
    ring

/-- Addition is exact whenever the exact sum is a value of the format. -/
theorem add_exact (a b : F32) (x y : ℚ) (ha : toRat a = some x) (hb : toRat b = some y)
    (m' : Nat) (e' : Int) (hm : m' < 2 ^ 24) (he1 : -149 ≤ e') (he2 : e' ≤ 104)
    (hrep : |x + y| = (m' : ℚ) * (2 : ℚ) ^ e') :
    toRat (add a b) = some (x + y) := by
  cases a with
  | nan => simp [toRat] at ha
  | inf _ => simp [toRat] at ha
  | fin n1 m1 e1 =>
    cases b with
    | nan => simp [toRat] at hb
    | inf _ => simp [toRat] at hb
    | fin n2 m2 e2 =>
      simp only [toRat, Option.some.injEq] at ha hb
      have hs : ((sval n1 m1 (e1 - min e1 e2).toNat + sval n2 m2 (e2 - min e1 e2).toNat : Int) : ℚ)
          * (2 : ℚ) ^ (min e1 e2) = x + y := by
        rw [Int.cast_add, add_mul, sval_scaled _ _ _ _ (min_le_left _ _),
          sval_scaled _ _ _ _ (min_le_right _ _), ha, hb]
      unfold add
      simp only
      generalize sval n1 m1 (e1 - min e1 e2).toNat + sval n2 m2 (e2 - min e1 e2).toNat = s at hs ⊢
      by_cases h0 : s = 0
      · rw [if_pos h0]
        subst h0
        simp only [Int.cast_zero, zero_mul] at hs
        simp [toRat, ← hs]
      · rw [if_neg h0]
        have habs : ((s.natAbs : Nat) : ℚ) * (2 : ℚ) ^ (min e1 e2) = (m' : ℚ) * (2 : ℚ) ^ e' := by
          rw [← hrep, ← hs, abs_mul, abs_of_pos (two_zpow_pos _), Nat.cast_natAbs, Int.cast_abs]
        rw [round_exact _ _ _ m' e' hm he1 he2 habs, ← hs]
        congr 1
        rw [Nat.cast_natAbs, Int.cast_abs]
        by_cases hneg : s < 0
        · have : (s : ℚ) < 0 := by exact_mod_cast hneg
          simp only [hneg, decide_True, if_true]
          rw [abs_of_neg this]
          ring
        · have : (0 : ℚ) ≤ (s : ℚ) := by exact_mod_cast (not_lt.mp hneg)
          simp only [hneg, decide_False, Bool.false_eq_true, if_false]
          rw [abs_of_nonneg this]
          ring

theorem toRat_one : toRat one = some 1 := by
  simp only [toRat, one, Bool.false_eq_true, if_false, one_mul, Option.some.injEq]
  norm_num

theorem toRat_neg (a : F32) (x : ℚ) (h : toRat a = some x) : toRat (neg a) = some (-x) := by
  cases a with
  | nan => simp [toRat] at h
  | inf _ => simp [toRat] at h
  | fin s m e =>
    simp only [toRat, Option.some.injEq] at h
    subst h
    cases s <;> simp [toRat, neg]

/-- An integer of magnitude at most `2^24` is a value of the format. -/
theorem int_in_format (k : Int) (h1 : -2 ^ 24 ≤ k) (h2 : k ≤ 2 ^ 24) :
    ∃ (m' : Nat) (e' : Int), m' < 2 ^ 24 ∧ -149 ≤ e' ∧ e' ≤ 104 ∧
      |(k : ℚ)| = (m' : ℚ) * (2 : ℚ) ^ e' := by
  by_cases h : k.natAbs < 2 ^ 24
  · refine ⟨k.natAbs, 0, h, by norm_num, by norm_num, ?_⟩
    rw [Nat.cast_natAbs, Int.cast_abs]
    simp
  · refine ⟨2 ^ 23, 1, by norm_num, by norm_num, by norm_num, ?_⟩
    have hk : k.natAbs = 2 ^ 24 := by omega
    have : |(k : ℚ)| = ((k.natAbs : Nat) : ℚ) := by
      rw [Nat.cast_natAbs, Int.cast_abs]
    rw [this, hk]
    norm_num

/-- Adding `1.0f` to an integer-valued datum is exact as long as the sum has
magnitude at most `2^24`. -/
theorem add_one_exact (a : F32) (k : Int) (ha : toRat a = some (k : ℚ))
    (h1 : -2 ^ 24 ≤ k + 1) (h2 : k + 1 ≤ 2 ^ 24) :
    toRat (add a one) = some ((k + 1 : Int) : ℚ) := by
  obtain ⟨m', e', hm, he1, he2, hrep⟩ := int_in_format (k + 1) h1 h2
  have := add_exact a one (k : ℚ) 1 ha toRat_one m' e' hm he1 he2
    (by rw [← hrep]; push_cast; rfl)
  rw [this]
  push_cast
  rfl

/-- Subtracting `1.0f` from an integer-valued datum is exact as long as the
difference has magnitude at most `2^24`. -/
theorem sub_one_exact (a : F32) (k : Int) (ha : toRat a = some (k : ℚ))
    (h1 : -2 ^ 24 ≤ k - 1) (h2 : k - 1 ≤ 2 ^ 24) :
    toRat (sub a one) = some ((k - 1 : Int) : ℚ) := by
  obtain ⟨m', e', hm, he1, he2, hrep⟩ := int_in_format (k - 1) h1 h2
  have := add_exact a (neg one) (k : ℚ) (-1) ha (toRat_neg _ _ toRat_one) m' e' hm he1 he2
    (by rw [← hrep]; push_cast; ring_nf)
  unfold sub
  rw [this]
  push_cast
  ring_nf

/-- On finite data the C comparison `>` is the order of the exact values. -/
theorem gt_iff_toRat (a b : F32) (x y : ℚ) (ha : toRat a = some x) (hb : toRat b = some y) :
    gt a b = true ↔ y < x := by
  cases a with
  | nan => simp [toRat] at ha
  | inf _ => simp [toRat] at ha
  | fin n1 m1 e1 =>
    cases b with
    | nan => simp [toRat] at hb
    | inf _ => simp [toRat] at hb
    | fin n2 m2 e2 =>
      simp only [toRat, Option.some.injEq] at ha hb
      have h1 := sval_scaled n1 m1 e1 (min e1 e2) (min_le_left _ _)
      have h2 := sval_scaled n2 m2 e2 (min e1 e2) (min_le_right _ _)
      unfold gt
      rw [decide_eq_true_eq, ← ha, ← hb, ← h1, ← h2]
      constructor
      · intro h
        exact mul_lt_mul_of_pos_right (Int.cast_lt.mpr h) (two_zpow_pos _)
      · intro h
        exact Int.cast_lt.mp (lt_of_mul_lt_mul_right h (le_of_lt (two_zpow_pos _)))

theorem significand_le (n : Nat) (e : Int) (hn : n ≠ 0) :
    significand n e (quantum n e) ≤ 2 ^ 24 := by
  obtain ⟨_, hhi⟩ := ilog2_spec n (Nat.pos_of_ne_zero hn)
  have hq1 : e + (ilog2 n : Int) - 23 ≤ quantum n e := le_max_left _ _
  generalize quantum n e = q at hq1
  unfold significand
  by_cases hqe : q ≤ e
  · simp only [hqe, if_true]
    have hk : ilog2 n + 1 + (e - q).toNat ≤ 24 := by omega
    calc n * 2 ^ (e - q).toNat
        ≤ 2 ^ (ilog2 n + 1) * 2 ^ (e - q).toNat := Nat.mul_le_mul_right _ (le_of_lt hhi)
      _ = 2 ^ (ilog2 n + 1 + (e - q).toNat) := (pow_add 2 _ _).symm
      _ ≤ 2 ^ 24 := Nat.pow_le_pow_right (by norm_num) hk
  · simp only [hqe, if_false]
    have hk : ilog2 n + 1 ≤ 24 + (q - e).toNat := by omega
    have hlt : n / 2 ^ (q - e).toNat < 2 ^ 24 := by
      rw [Nat.div_lt_iff_lt_mul (pow_pos (by norm_num) _), ← pow_add]
      exact lt_of_lt_of_le hhi (Nat.pow_le_pow_right (by norm_num) hk)
    split <;> omega

/-- Rounding returns a datum of the format. -/
theorem round_wf (s : Bool) (n : Nat) (e : Int) : wf (round s n e) = true := by
  unfold round
  by_cases hn : n = 0
  · simp [hn, wf]
  · have hle := significand_le n e hn
    have hq2 : (-149 : Int) ≤ quantum n e := le_max_right _ _
    rw [if_neg hn]
    split
    · split
      · rfl
      · simp only [wf, Bool.and_eq_true, decide_eq_true_eq]
        omega
    · split
      · rfl
      · simp only [wf, Bool.and_eq_true, decide_eq_true_eq]
        omega

/-- Sums, differences and products are data of the format. -/
theorem add_wf (a b : F32) : wf (add a b) = true := by
  cases a <;> cases b <;> simp only [add] <;> try rfl
  · split <;> rfl
  · split
    · simp [wf]
    · exact round_wf _ _ _

theorem sub_wf (a b : F32) : wf (sub a b) = true := add_wf a (neg b)

theorem mul_wf (a b : F32) : wf (mul a b) = true := by
  cases a <;> cases b <;> simp only [mul] <;> try rfl
  · split <;> rfl
  · split <;> rfl
  · exact round_wf _ _ _

end F32

/-! ## The tick handler -/

theorem tick_alert_active (rssi : F32) (state : SpecterSignalState) :
    (specter_signal_app_tick rssi state).1.alert_active
      = F32.gt rssi state.config.threshold := by
  unfold specter_signal_app_tick
  by_cases h : 0 < state.config.num_frequencies <;> simp [h]

theorem tick_config (rssi : F32) (state : SpecterSignalState) :
    (specter_signal_app_tick rssi state).1.config = state.config := by
  unfold specter_signal_app_tick
  by_cases h : 0 < state.config.num_frequencies <;> simp [h]

theorem tick_notifications (rssi : F32) (state : SpecterSignalState) :
    notifications (specter_signal_app_tick rssi state).2
      = (if F32.gt rssi state.config.threshold = true ∧ state.config.visual_alert = true
          then [sequence_blink_red_100] else []) ++
        (if F32.gt rssi state.config.threshold = true ∧ state.config.vibration_alert = true
          then [sequence_single_vibro] else []) := by
  unfold specter_signal_app_tick
  by_cases h : 0 < state.config.num_frequencies <;>
    cases hg : F32.gt rssi state.config.threshold <;>
    cases hv : state.config.visual_alert <;>
    cases hb : state.config.vibration_alert <;>
    simp [h, hg, hv, hb, notifications]

/-- C1: for every state, sample and threshold, one tick stores the sample and
sets `alert_active` to exactly `signal > threshold` (the C comparison on
`float`: false when the two compare equal, and on finite values the strict
order of the exact values); the notifications sent during the tick are one
blink iff the alert is active and `visual_alert` is set, followed by one
vibration iff the alert is active and `vibration_alert` is set; none is sent
when the alert is not active. -/
theorem C1_tick_alert_and_notifications (rssi : F32) (state : SpecterSignalState) :
    (specter_signal_app_tick rssi state).1.alert_active
        = F32.gt rssi state.config.threshold ∧
    (specter_signal_app_tick rssi state).1.current_signal = rssi ∧
    (F32.eq rssi state.config.threshold = true →
      (specter_signal_app_tick rssi state).1.alert_active = false) ∧
    notifications (specter_signal_app_tick rssi state).2
      = (if (specter_signal_app_tick rssi state).1.alert_active = true ∧
            state.config.visual_alert = true
          then [sequence_blink_red_100] else []) ++
        (if (specter_signal_app_tick rssi state).1.alert_active = true ∧
            state.config.vibration_alert = true
          then [sequence_single_vibro] else []) ∧
    ((specter_signal_app_tick rssi state).1.alert_active = false →
      notifications (specter_signal_app_tick rssi state).2 = []) ∧
    (∀ x y : ℚ, F32.toRat rssi = some x → F32.toRat state.config.threshold = some y →
      ((specter_signal_app_tick rssi state).1.alert_active = true ↔ y < x)) := by
  refine ⟨tick_alert_active rssi state, ?_, ?_, ?_, ?_, ?_⟩
  · unfold specter_signal_app_tick
    by_cases h : 0 < state.config.num_frequencies <;> simp [h]
  · intro h
    rw [tick_alert_active]
    exact F32.eq_true_gt_false _ _ h
  · rw [tick_alert_active]
    exact tick_notifications rssi state
  · intro h
    rw [tick_alert_active] at h
    rw [tick_notifications]
    simp [h]
  · intro x y hx hy
    rw [tick_alert_active]
    exact F32.gt_iff_toRat rssi state.config.threshold x y hx hy

/-- C1, at the scenario of the specification: threshold `-60.0`, signal `-55.0`,
both alert modes enabled. -/
theorem C1_tick_alert_and_notifications_witness :
    (specter_signal_app_tick (F32.fin true 55 0)
        { current_view := ViewMain,
          config := { frequencies := [F32.c433_92, F32.c915, F32.zero, F32.zero, F32.zero],
                      num_frequencies := 2, threshold := F32.cm60,
                      visual_alert := true, vibration_alert := true },
          current_signal := F32.zero, alert_active := false, selected_item := 0,
          current_frequency_index := 0, settings_changed := false }).1.alert_active = true ∧
    F32.eq F32.cm60 F32.cm60 = true ∧
    (specter_signal_app_tick F32.cm60
        { current_view := ViewMain,
          config := { frequencies := [F32.c433_92, F32.c915, F32.zero, F32.zero, F32.zero],
                      num_frequencies := 2, threshold := F32.cm60,
                      visual_alert := true, vibration_alert := true },
          current_signal := F32.zero, alert_active := false, selected_item := 0,
          current_frequency_index := 0, settings_changed := false }).1.alert_active = false :=
  ⟨by rw [(C1_tick_alert_and_notifications _ _).1]; decide, by decide,
    (C1_tick_alert_and_notifications _ _).2.2.1 (by decide)⟩

theorem tick_no_frequencies (rssi : F32) (state : SpecterSignalState)
    (h : state.config.num_frequencies = 0) :
    (specter_signal_app_tick rssi state).1.current_frequency_index
        = state.current_frequency_index ∧
    radio_calls (specter_signal_app_tick rssi state).2 = [] := by
  unfold specter_signal_app_tick
  cases hg : F32.gt rssi state.config.threshold <;>
    cases hv : state.config.visual_alert <;>
    cases hb : state.config.vibration_alert <;>
    simp [h, hg, hv, hb, radio_calls]

/-- C3: with `num_frequencies == 0` a tick leaves `current_frequency_index`
unchanged and makes no call to the radio (no idle, no set_frequency, no
receive; the modulo by `num_frequencies` sits under the `> 0` guard and is not
reached), while `alert_active` is still recomputed from the sample of this
tick and the threshold, and the notifications are still sent accordingly. -/
theorem C3_tick_without_frequencies (rssi : F32) (state : SpecterSignalState)
    (h : state.config.num_frequencies = 0) :
    (specter_signal_app_tick rssi state).1.current_frequency_index
        = state.current_frequency_index ∧
    radio_calls (specter_signal_app_tick rssi state).2 = [] ∧
    (specter_signal_app_tick rssi state).1.alert_active
        = F32.gt rssi state.config.threshold ∧
    (specter_signal_app_tick rssi state).2
      = (if F32.gt rssi state.config.threshold = true ∧ state.config.visual_alert = true
          then [Call.notification_message sequence_blink_red_100] else []) ++
        (if F32.gt rssi state.config.threshold = true ∧ state.config.vibration_alert = true
          then [Call.notification_message sequence_single_vibro] else []) := by
  refine ⟨(tick_no_frequencies rssi state h).1, (tick_no_frequencies rssi state h).2,
    tick_alert_active rssi state, ?_⟩
  unfold specter_signal_app_tick
  cases hg : F32.gt rssi state.config.threshold <;>
    cases hv : state.config.visual_alert <;>
    cases hb : state.config.vibration_alert <;>
    simp [h, hg, hv, hb]

/-- C3 at a state with no frequency and a sample of `-55.0` above the threshold `-60.0`. -/
theorem C3_tick_without_frequencies_witness :
    state_no_frequencies.config.num_frequencies = 0 ∧
    (specter_signal_app_tick (F32.fin true 55 0) state_no_frequencies).1.current_frequency_index
      = 0 ∧
    (specter_signal_app_tick (F32.fin true 55 0) state_no_frequencies).1.alert_active = true ∧
    (specter_signal_app_tick (F32.fin true 55 0) state_no_frequencies).2
      = [Call.notification_message sequence_blink_red_100] :=
  ⟨rfl,
   (C3_tick_without_frequencies (F32.fin true 55 0) state_no_frequencies rfl).1,
   by rw [(C3_tick_without_frequencies (F32.fin true 55 0) state_no_frequencies rfl).2.2.1]
      decide,
   by rw [(C3_tick_without_frequencies (F32.fin true 55 0) state_no_frequencies rfl).2.2.2]
      decide⟩

/-! ### Frequency rotation -/

theorem tick_index (rssi : F32) (state : SpecterSignalState)
    (hpos : 0 < state.config.num_frequencies)
    (h32 : state.config.num_frequencies < 2 ^ 32)
    (hidx : state.current_frequency_index < state.config.num_frequencies) :
    (specter_signal_app_tick rssi state).1.current_frequency_index
      = (state.current_frequency_index + 1) % state.config.num_frequencies := by
  have hu : u32 (state.current_frequency_index + 1) = state.current_frequency_index + 1 := by
    unfold u32
    exact Nat.mod_eq_of_lt (by omega)
  unfold specter_signal_app_tick
  simp [hpos, hu]

theorem loop_ticks_index (events : List (SpecterSignalEvent × Answers)) :
    ∀ state : SpecterSignalState, all_ticks events →
      0 < state.config.num_frequencies → state.config.num_frequencies < 2 ^ 32 →
      state.current_frequency_index < state.config.num_frequencies →
      (specter_signal_app_loop state events).1.current_frequency_index
        = (state.current_frequency_index + events.length) % state.config.num_frequencies := by
  induction events with
  | nil =>
    intro state _ _ _ hidx
    simp [specter_signal_app_loop, Nat.mod_eq_of_lt hidx]
  | cons p rest ih =>
    intro state hall hpos h32 hidx
    obtain ⟨event, a⟩ := p
    have hty : event.type = EventTypeTick := hall (event, a) (List.mem_cons_self _ _)
    have hrest : all_ticks rest := fun q hq => hall q (List.mem_cons_of_mem _ hq)
    have hcfg := tick_config a.rssi state
    have hi := tick_index a.rssi state hpos h32 hidx
    have hlt : (specter_signal_app_tick a.rssi state).1.current_frequency_index
        < (specter_signal_app_tick a.rssi state).1.config.num_frequencies := by
      rw [hcfg, hi]
      exact Nat.mod_lt _ hpos
    have := ih (specter_signal_app_tick a.rssi state).1 hrest (by rw [hcfg]; exact hpos)
      (by rw [hcfg]; exact h32) hlt
    simp only [specter_signal_app_loop, specter_signal_app_step, hty]
    simp only [if_true]
    rw [this, hcfg, hi, List.length_cons, Nat.mod_add_mod]
    congr 1
    omega

theorem add_mod_injective (n i a b : Nat) (ha : a < n) (hb : b < n)
    (h : (i + a) % n = (i + b) % n) : a = b := by
  have h1 : i + a ≡ i + b [MOD n] := h
  have h2 : a ≡ b [MOD n] := Nat.ModEq.add_left_cancel' i h1
  exact Nat.ModEq.eq_of_lt_of_lt h2 ha hb

/-- C2: with `count = num_frequencies > 0` and `current_frequency_index` in
`[0, count)`, one tick sets the index to `(index + 1) mod count`; along any
sequence of ticks the index stays in `[0, count)`; the indices reached after
`0, 1, ..., count - 1` ticks are pairwise distinct; and `count` consecutive
ticks bring the index back to its starting value. -/
theorem C2_frequency_rotation (state : SpecterSignalState)
    (hpos : 0 < state.config.num_frequencies)
    (h32 : state.config.num_frequencies < 2 ^ 32)
    (hidx : state.current_frequency_index < state.config.num_frequencies) :
    (∀ rssi : F32, (specter_signal_app_tick rssi state).1.current_frequency_index
        = (state.current_frequency_index + 1) % state.config.num_frequencies) ∧
    (∀ events, all_ticks events →
      (specter_signal_app_loop state events).1.current_frequency_index
        < state.config.num_frequencies) ∧
    (∀ events1 events2, all_ticks events1 → all_ticks events2 →
      events1.length < state.config.num_frequencies →
      events2.length < state.config.num_frequencies →
      events1.length ≠ events2.length →
      (specter_signal_app_loop state events1).1.current_frequency_index
        ≠ (specter_signal_app_loop state events2).1.current_frequency_index) ∧
    (∀ events, all_ticks events → events.length = state.config.num_frequencies →
      (specter_signal_app_loop state events).1.current_frequency_index
        = state.current_frequency_index) := by
  refine ⟨fun rssi => tick_index rssi state hpos h32 hidx, ?_, ?_, ?_⟩
  · intro events hall
    rw [loop_ticks_index events state hall hpos h32 hidx]
    exact Nat.mod_lt _ hpos
  · intro events1 events2 hall1 hall2 hl1 hl2 hne heq
    rw [loop_ticks_index events1 state hall1 hpos h32 hidx,
      loop_ticks_index events2 state hall2 hpos h32 hidx] at heq
    exact hne (add_mod_injective _ _ _ _ hl1 hl2 heq)
  · intro events hall hlen
    rw [loop_ticks_index events state hall hpos h32 hidx, hlen, Nat.add_mod_right]
    exact Nat.mod_eq_of_lt hidx

theorem all_ticks_pair (a b : Answers) : all_ticks [(tick_event, a), (tick_event, b)] := by
  intro p hp
  simp only [List.mem_cons, List.mem_singleton, List.not_mem_nil, or_false] at hp
  rcases hp with h | h <;> rw [h] <;> rfl

/-- C2 at the scenario `num_frequencies = 2`, `current_frequency_index = 1`:
one tick yields `0`, a second yields `1`. -/
theorem C2_frequency_rotation_witness :
    (specter_signal_app_tick F32.cm60 state_two_frequencies).1.current_frequency_index = 0 ∧
    (specter_signal_app_loop state_two_frequencies
        [(tick_event, ⟨F32.cm60, false⟩), (tick_event, ⟨F32.zero, true⟩)]
      ).1.current_frequency_index = 1 :=
  ⟨(C2_frequency_rotation state_two_frequencies (by decide) (by decide) (by decide)).1 F32.cm60,
   (C2_frequency_rotation state_two_frequencies (by decide) (by decide) (by decide)).2.2.2
      _ (all_ticks_pair _ _) rfl⟩

/-! ## The key handler in Config view -/

theorem u32_of_lt (x : Nat) (h : x < 2 ^ 32) : u32 x = x := by
  unfold u32
  exact Nat.mod_eq_of_lt h

theorem process_input_up (prompt : Bool) (state : SpecterSignalState)
    (hview : state.current_view = ViewConfig) :
    specter_signal_process_input prompt state { type := InputTypeShort, key := InputKeyUp }
      = ({ state with selected_item := state.selected_item - 1 }, []) := by
  obtain ⟨v, c, sig, al, sel, idx, ch⟩ := state
  simp only at hview
  subst hview
  unfold specter_signal_process_input
  by_cases h : 0 < sel
  · simp [h]
  · have h0 : sel = 0 := by omega
    simp [h0]

theorem process_input_down (prompt : Bool) (state : SpecterSignalState)
    (hview : state.current_view = ViewConfig)
    (hn : state.config.num_frequencies + 3 < 2 ^ 32)
    (hsel : state.selected_item ≤ state.config.num_frequencies + 3) :
    specter_signal_process_input prompt state { type := InputTypeShort, key := InputKeyDown }
      = ({ state with selected_item :=
            if state.selected_item < state.config.num_frequencies + 3
            then state.selected_item + 1 else state.selected_item }, []) := by
  obtain ⟨v, c, sig, al, sel, idx, ch⟩ := state
  simp only at hview hn hsel
  subst hview
  unfold specter_signal_process_input
  simp only
  rw [u32_of_lt _ hn]
  by_cases h : sel < c.num_frequencies + 3
  · rw [u32_of_lt _ (by omega)]
    simp [h]
  · simp [h]

theorem loop_up_down (events : List (SpecterSignalEvent × Answers)) :
    ∀ state : SpecterSignalState, up_down_keys events →
      state.current_view = ViewConfig →
      state.config.num_frequencies + 3 < 2 ^ 32 →
      state.selected_item ≤ state.config.num_frequencies + 3 →
      (specter_signal_app_loop state events).1.selected_item
          ≤ state.config.num_frequencies + 3 ∧
      (specter_signal_app_loop state events).1.config = state.config ∧
      (specter_signal_app_loop state events).1.current_view = ViewConfig ∧
      (specter_signal_app_loop state events).2 = [] := by
  induction events with
  | nil =>
    intro state _ hview _ hsel
    exact ⟨hsel, rfl, hview, rfl⟩
  | cons p rest ih =>
    intro state hall hview hn hsel
    obtain ⟨event, a⟩ := p
    have hrest : up_down_keys rest := fun q hq => hall q (List.mem_cons_of_mem _ hq)
    rcases hall (event, a) (List.mem_cons_self _ _) with hev | hev
    · simp only at hev
      subst hev
      have hstep := process_input_up a.prompt state hview
      have := ih { state with selected_item := state.selected_item - 1 } hrest hview hn
        (by show state.selected_item - 1 ≤ state.config.num_frequencies + 3; omega)
      simp only [specter_signal_app_loop, specter_signal_app_step, short_key, hview]
      simp only [hstep]
      simpa using this
    · simp only at hev
      subst hev
      have hstep := process_input_down a.prompt state hview hn hsel
      have := ih { state with selected_item :=
            if state.selected_item < state.config.num_frequencies + 3
            then state.selected_item + 1 else state.selected_item } hrest hview hn
        (by
          show (if state.selected_item < state.config.num_frequencies + 3
            then state.selected_item + 1 else state.selected_item)
              ≤ state.config.num_frequencies + 3
          split <;> omega)
      simp only [specter_signal_app_loop, specter_signal_app_step, short_key, hview]
      simp only [hstep]
      simpa using this

/-- C4: in Config view with `n = num_frequencies ≤ MAX_FREQUENCIES` and
`selected_item` in `[0, n + 3]`, after any finite sequence of short Up / Down
key events `selected_item` is still in `[0, n + 3]` (view and configuration
being unchanged); Up moves the cursor by `-1` and Down by `+1`, except that Up
at `0` and Down at `n + 3` leave it where it is. -/
theorem C4_cursor_stays_in_range (state : SpecterSignalState)
    (hview : state.current_view = ViewConfig)
    (hn : state.config.num_frequencies ≤ MAX_FREQUENCIES)
    (hsel : state.selected_item ≤ state.config.num_frequencies + 3) :
    (∀ events, up_down_keys events →
      (specter_signal_app_loop state events).1.selected_item
          ≤ state.config.num_frequencies + 3 ∧
      (specter_signal_app_loop state events).1.config = state.config ∧
      (specter_signal_app_loop state events).1.current_view = ViewConfig) ∧
    (∀ prompt, (specter_signal_process_input prompt state
        { type := InputTypeShort, key := InputKeyUp }).1.selected_item
      = if state.selected_item = 0 then 0 else state.selected_item - 1) ∧
    (∀ prompt, (specter_signal_process_input prompt state
        { type := InputTypeShort, key := InputKeyDown }).1.selected_item
      = if state.selected_item = state.config.num_frequencies + 3
        then state.config.num_frequencies + 3 else state.selected_item + 1) := by
  have hn3 : state.config.num_frequencies + 3 < 2 ^ 32 := by
    unfold MAX_FREQUENCIES at hn
    omega
  refine ⟨?_, ?_, ?_⟩
  · intro events hall
    have := loop_up_down events state hall hview hn3 hsel
    exact ⟨this.1, this.2.1, this.2.2.1⟩
  · intro prompt
    rw [process_input_up prompt state hview]
    show state.selected_item - 1 = _
    split <;> omega
  · intro prompt
    rw [process_input_down prompt state hview hn3 hsel]
    show (if state.selected_item < state.config.num_frequencies + 3
        then state.selected_item + 1 else state.selected_item)
      = if state.selected_item = state.config.num_frequencies + 3
        then state.config.num_frequencies + 3 else state.selected_item + 1
    split <;> split <;> omega

/-- C4 at two frequencies, from the first item: Up keeps the cursor at `0`, Down moves it to `1`. -/
theorem C4_cursor_stays_in_range_witness :
    (specter_signal_process_input false state_config_top
        { type := InputTypeShort, key := InputKeyUp }).1.selected_item = 0 ∧
    (specter_signal_process_input false state_config_top
        { type := InputTypeShort, key := InputKeyDown }).1.selected_item = 1 :=
  ⟨(C4_cursor_stays_in_range state_config_top rfl (by decide) (by decide)).2.1 false,
   (C4_cursor_stays_in_range state_config_top rfl (by decide) (by decide)).2.2 false⟩

/-! ### Leaving Config view -/

theorem process_input_back (prompt : Bool) (state : SpecterSignalState)
    (hview : state.current_view = ViewConfig) :
    specter_signal_process_input prompt state { type := InputTypeShort, key := InputKeyBack }
      = ({ state with current_view := ViewMain }, prompt_and_save prompt state) := by
  unfold specter_signal_process_input
  simp [hview]

theorem process_input_ok (prompt : Bool) (state : SpecterSignalState)
    (hview : state.current_view = ViewConfig) :
    specter_signal_process_input prompt state { type := InputTypeShort, key := InputKeyOk }
      = if state.selected_item = u32 (state.config.num_frequencies + 3)
        then ({ state with current_view := ViewMain }, prompt_and_save prompt state)
        else (state, []) := by
  unfold specter_signal_process_input
  simp [hview]

theorem process_input_ok_main (prompt : Bool) (state : SpecterSignalState)
    (hview : state.current_view = ViewMain) :
    specter_signal_process_input prompt state { type := InputTypeShort, key := InputKeyOk }
      = ({ state with current_view := ViewConfig, selected_item := 0,
                      settings_changed := false }, []) := by
  unfold specter_signal_process_input
  simp [hview]

theorem prompt_count_prompt_and_save (prompt : Bool) (state : SpecterSignalState) :
    prompt_count (prompt_and_save prompt state)
      = if state.settings_changed = true then 1 else 0 := by
  unfold prompt_count prompt_and_save
  cases state.settings_changed <;> cases prompt <;> simp

theorem saved_configs_prompt_and_save (prompt : Bool) (state : SpecterSignalState) :
    saved_configs (prompt_and_save prompt state)
      = if state.settings_changed = true ∧ prompt = true then [state.config] else [] := by
  unfold prompt_and_save
  cases state.settings_changed <;> cases prompt <;> simp [saved_configs]

/-- C5 fails as stated: from a Config-view state with the dirty flag set, a
short Back key (and likewise a short OK on the Back item), with either answer
of the dialog, ends in Main view with the dirty flag still set. -/
theorem C5_dirty_flag_survives_exit :
    state_config_dirty.current_view = ViewConfig ∧
    state_config_dirty.selected_item = state_config_dirty.config.num_frequencies + 3 ∧
    (specter_signal_process_input true state_config_dirty
      { type := InputTypeShort, key := InputKeyBack }).1.settings_changed = true ∧
    (specter_signal_process_input false state_config_dirty
      { type := InputTypeShort, key := InputKeyBack }).1.settings_changed = true ∧
    (specter_signal_process_input true state_config_dirty
      { type := InputTypeShort, key := InputKeyOk }).1.settings_changed = true ∧
    (specter_signal_process_input false state_config_dirty
      { type := InputTypeShort, key := InputKeyOk }).1.settings_changed = true := by
  decide

theorem tick_keeps_view_and_flag (rssi : F32) (state : SpecterSignalState) :
    (specter_signal_app_tick rssi state).1.settings_changed = state.settings_changed ∧
    (specter_signal_app_tick rssi state).1.current_view = state.current_view := by
  unfold specter_signal_app_tick
  by_cases h : 0 < state.config.num_frequencies <;> simp [h]

theorem step_main_keeps_flag (rssi : F32) (prompt : Bool) (state : SpecterSignalState)
    (event : SpecterSignalEvent) (hview : state.current_view = ViewMain)
    (hnok : ¬ (event.type = EventTypeKey ∧ event.input.type = InputTypeShort ∧
      event.input.key = InputKeyOk)) :
    (specter_signal_app_step rssi prompt state event).1.settings_changed
      = state.settings_changed ∧
    (specter_signal_app_step rssi prompt state event).1.current_view = ViewMain := by
  obtain ⟨ty, ity, key⟩ := event
  cases ty with
  | EventTypeTick =>
    have h := tick_keeps_view_and_flag rssi state
    simp only [specter_signal_app_step]
    exact ⟨h.1, h.2.trans hview⟩
  | EventTypeKey =>
    have hk : ¬ (ity = InputTypeShort ∧ key = InputKeyOk) := fun h => hnok ⟨rfl, h.1, h.2⟩
    simp only [specter_signal_app_step, specter_signal_process_input, hview]
    by_cases hb : ity = InputTypeShort ∧ key = InputKeyBack
    · simp [hb, hview]
    · by_cases hu : ity = InputTypeShort ∧ key = InputKeyUp
      · simp [hu, hview]
      · simp [hb, hk, hu, hview]

theorem loop_main_keeps_flag (events : List (SpecterSignalEvent × Answers)) :
    ∀ state : SpecterSignalState, no_short_ok events → state.current_view = ViewMain →
      (specter_signal_app_loop state events).1.settings_changed = state.settings_changed ∧
      (specter_signal_app_loop state events).1.current_view = ViewMain := by
  induction events with
  | nil =>
    intro state _ hview
    exact ⟨rfl, hview⟩
  | cons p rest ih =>
    intro state hall hview
    obtain ⟨event, a⟩ := p
    have hrest : no_short_ok rest := fun q hq => hall q (List.mem_cons_of_mem _ hq)
    have hstep := step_main_keeps_flag a.rssi a.prompt state event hview
      (hall (event, a) (List.mem_cons_self _ _))
    have hnext := ih (specter_signal_app_step a.rssi a.prompt state event).1 hrest hstep.2
    simp only [specter_signal_app_loop]
    split
    · exact ⟨hnext.1.trans hstep.1, hnext.2⟩
    · exact hstep

/-- C5, amended: for every Config-view state and either answer of the dialog,
a short Back key, or a short OK key with the cursor on the Back item
(`selected_item == num_frequencies + 3`), ends in a state whose view is Main,
with the dirty flag, the cursor and the configuration as they were; the flag is
cleared only by the next short OK in Main view, which enters Config view with
the cursor at `0` and the flag false: along any sequence of ticks and of key
events other than a short OK processed after the exit, the view stays Main and
the flag keeps the value it had before the exit. -/
theorem C5_exit_to_main_keeps_flag (prompt : Bool) (state : SpecterSignalState)
    (hview : state.current_view = ViewConfig) (h32 : state.selected_item < 2 ^ 32) :
    (specter_signal_process_input prompt state
        { type := InputTypeShort, key := InputKeyBack }).1
      = { state with current_view := ViewMain } ∧
    (state.selected_item = state.config.num_frequencies + 3 →
      (specter_signal_process_input prompt state
          { type := InputTypeShort, key := InputKeyOk }).1
        = { state with current_view := ViewMain }) ∧
    (∀ prompt2, (specter_signal_process_input prompt2 { state with current_view := ViewMain }
        { type := InputTypeShort, key := InputKeyOk }).1
      = { state with current_view := ViewConfig, selected_item := 0,
                     settings_changed := false }) ∧
    (∀ events, no_short_ok events →
      (specter_signal_app_loop { state with current_view := ViewMain }
          events).1.settings_changed = state.settings_changed ∧
      (specter_signal_app_loop { state with current_view := ViewMain }
          events).1.current_view = ViewMain ∧
      ∀ a : Answers,
        (specter_signal_app_step a.rssi a.prompt
          (specter_signal_app_loop { state with current_view := ViewMain } events).1
          (short_key InputKeyOk)).1.settings_changed = false ∧
        (specter_signal_app_step a.rssi a.prompt
          (specter_signal_app_loop { state with current_view := ViewMain } events).1
          (short_key InputKeyOk)).1.current_view = ViewConfig ∧
        (specter_signal_app_step a.rssi a.prompt
          (specter_signal_app_loop { state with current_view := ViewMain } events).1
          (short_key InputKeyOk)).1.selected_item = 0) := by
  refine ⟨?_, ?_, ?_, ?_⟩
  · rw [process_input_back prompt state hview]
  · intro hsel
    rw [process_input_ok prompt state hview, ← hsel, u32_of_lt _ h32]
    simp
  · intro prompt2
    rw [process_input_ok_main prompt2 _ rfl]
  · intro events hall
    have h := loop_main_keeps_flag events { state with current_view := ViewMain } hall rfl
    refine ⟨h.1, h.2, ?_⟩
    intro a
    have hok := process_input_ok_main a.prompt
      (specter_signal_app_loop { state with current_view := ViewMain } events).1 h.2
    simp only [specter_signal_app_step, short_key]
    rw [if_neg (by simp), hok]
    exact ⟨rfl, rfl, rfl⟩

/-- C5, amended, at the dirty state with the cursor on the Back item: Back and
OK both end in Main view with the flag still set. -/
theorem C5_exit_to_main_keeps_flag_witness :
    (specter_signal_process_input true state_config_dirty
        { type := InputTypeShort, key := InputKeyBack }).1.current_view = ViewMain ∧
    (specter_signal_process_input true state_config_dirty
        { type := InputTypeShort, key := InputKeyOk }).1.settings_changed = true :=
  ⟨by rw [(C5_exit_to_main_keeps_flag true state_config_dirty rfl (by decide)).1],
   by rw [(C5_exit_to_main_keeps_flag true state_config_dirty rfl (by decide)).2.1 rfl]; rfl⟩

/-- C6: when Config view is left by a short Back key or by a short OK on the
Back item, the dialog is shown exactly once if the dirty flag is set and not at
all otherwise, and `save_config` is called (once, with the current
configuration) iff the flag was set and the dialog answered affirmatively; a
short OK on any other item makes no call and changes nothing.  Here
`num_frequencies + 3` is within `uint32_t`, as it is for
`num_frequencies ≤ MAX_FREQUENCIES`. -/
theorem C6_prompt_and_save_on_exit (prompt : Bool) (state : SpecterSignalState)
    (hview : state.current_view = ViewConfig)
    (hn : state.config.num_frequencies + 3 < 2 ^ 32) :
    ((specter_signal_process_input prompt state
        { type := InputTypeShort, key := InputKeyBack }).1.current_view = ViewMain ∧
      prompt_count (specter_signal_process_input prompt state
        { type := InputTypeShort, key := InputKeyBack }).2
        = (if state.settings_changed = true then 1 else 0) ∧
      saved_configs (specter_signal_process_input prompt state
        { type := InputTypeShort, key := InputKeyBack }).2
        = (if state.settings_changed = true ∧ prompt = true then [state.config] else [])) ∧
    (state.selected_item = state.config.num_frequencies + 3 →
      (specter_signal_process_input prompt state
        { type := InputTypeShort, key := InputKeyOk }).1.current_view = ViewMain ∧
      prompt_count (specter_signal_process_input prompt state
        { type := InputTypeShort, key := InputKeyOk }).2
        = (if state.settings_changed = true then 1 else 0) ∧
      saved_configs (specter_signal_process_input prompt state
        { type := InputTypeShort, key := InputKeyOk }).2
        = (if state.settings_changed = true ∧ prompt = true then [state.config] else [])) ∧
    (state.selected_item ≠ state.config.num_frequencies + 3 →
      specter_signal_process_input prompt state
        { type := InputTypeShort, key := InputKeyOk } = (state, [])) := by
  refine ⟨?_, ?_, ?_⟩
  · rw [process_input_back prompt state hview]
    exact ⟨rfl, prompt_count_prompt_and_save prompt state,
      saved_configs_prompt_and_save prompt state⟩
  · intro hsel
    rw [process_input_ok prompt state hview, u32_of_lt _ hn, if_pos hsel]
    exact ⟨rfl, prompt_count_prompt_and_save prompt state,
      saved_configs_prompt_and_save prompt state⟩
  · intro hsel
    rw [process_input_ok prompt state hview, u32_of_lt _ hn, if_neg hsel]

/-- C6 at the dirty state with the cursor on the Back item and an affirmative
answer: one dialog, one save of the current configuration. -/
theorem C6_prompt_and_save_on_exit_witness :
    prompt_count (specter_signal_process_input true state_config_dirty
        { type := InputTypeShort, key := InputKeyOk }).2 = 1 ∧
    saved_configs (specter_signal_process_input true state_config_dirty
        { type := InputTypeShort, key := InputKeyBack }).2 = [state_config_dirty.config] ∧
    specter_signal_process_input true state_config_top
        { type := InputTypeShort, key := InputKeyOk } = (state_config_top, []) :=
  ⟨((C6_prompt_and_save_on_exit true state_config_dirty rfl (by decide)).2.1 rfl).2.1,
   (C6_prompt_and_save_on_exit true state_config_dirty rfl (by decide)).1.2.2,
   (C6_prompt_and_save_on_exit true state_config_top rfl (by decide)).2.2 (by decide)⟩

/-! ### Editing with Left and Right -/

theorem process_input_right_threshold (prompt : Bool) (state : SpecterSignalState)
    (hview : state.current_view = ViewConfig)
    (hsel : state.selected_item = state.config.num_frequencies) :
    specter_signal_process_input prompt state { type := InputTypeShort, key := InputKeyRight }
      = ({ state with
            settings_changed := true
            config := { state.config with
              threshold := F32.add state.config.threshold F32.one } }, []) := by
  unfold specter_signal_process_input
  simp [hview, hsel]

theorem process_input_left_threshold (prompt : Bool) (state : SpecterSignalState)
    (hview : state.current_view = ViewConfig)
    (hsel : state.selected_item = state.config.num_frequencies) :
    specter_signal_process_input prompt state { type := InputTypeShort, key := InputKeyLeft }
      = ({ state with
            settings_changed := true
            config := { state.config with
              threshold := F32.sub state.config.threshold F32.one } }, []) := by
  unfold specter_signal_process_input
  simp [hview, hsel]

theorem process_input_toggle_visual (prompt : Bool) (state : SpecterSignalState)
    (key : InputKey) (hkey : key = InputKeyLeft ∨ key = InputKeyRight)
    (hview : state.current_view = ViewConfig)
    (hsel : state.selected_item = state.config.num_frequencies + 1)
    (h32 : state.selected_item < 2 ^ 32) :
    specter_signal_process_input prompt state { type := InputTypeShort, key := key }
      = ({ state with
            settings_changed := true
            config := { state.config with
              visual_alert := !state.config.visual_alert } }, []) := by
  have hu : u32 (state.config.num_frequencies + 1) = state.config.num_frequencies + 1 :=
    u32_of_lt _ (by omega)
  unfold specter_signal_process_input
  rcases hkey with h | h <;> subst h <;> simp [hview, hsel, hu]

theorem process_input_toggle_vibration (prompt : Bool) (state : SpecterSignalState)
    (key : InputKey) (hkey : key = InputKeyLeft ∨ key = InputKeyRight)
    (hview : state.current_view = ViewConfig)
    (hsel : state.selected_item = state.config.num_frequencies + 2)
    (h32 : state.selected_item < 2 ^ 32) :
    specter_signal_process_input prompt state { type := InputTypeShort, key := key }
      = ({ state with
            settings_changed := true
            config := { state.config with
              vibration_alert := !state.config.vibration_alert } }, []) := by
  have hu1 : u32 (state.config.num_frequencies + 1) = state.config.num_frequencies + 1 :=
    u32_of_lt _ (by omega)
  have hu2 : u32 (state.config.num_frequencies + 2) = state.config.num_frequencies + 2 :=
    u32_of_lt _ (by omega)
  unfold specter_signal_process_input
  rcases hkey with h | h <;> subst h <;> simp [hview, hsel, hu1, hu2]

theorem process_input_left_right_back_item (prompt : Bool) (state : SpecterSignalState)
    (key : InputKey) (hkey : key = InputKeyLeft ∨ key = InputKeyRight)
    (hview : state.current_view = ViewConfig)
    (hsel : state.selected_item = state.config.num_frequencies + 3)
    (h32 : state.selected_item < 2 ^ 32) :
    specter_signal_process_input prompt state { type := InputTypeShort, key := key }
      = ({ state with settings_changed := true }, []) := by
  have hu1 : u32 (state.config.num_frequencies + 1) = state.config.num_frequencies + 1 :=
    u32_of_lt _ (by omega)
  have hu2 : u32 (state.config.num_frequencies + 2) = state.config.num_frequencies + 2 :=
    u32_of_lt _ (by omega)
  unfold specter_signal_process_input
  rcases hkey with h | h <;> subst h <;> simp [hview, hsel, hu1, hu2]

/-- C9: in Config view with the cursor on the VisualAlert item
(`selected_item == n + 1`) or on the VibrationAlert item
(`selected_item == n + 2`), a short Left and a short Right have the same
effect: the selected boolean `X` becomes `!X`, the other boolean, the threshold
and the frequencies are unchanged (the dirty flag is set, no call is made);
any two such presses in a row give back the configuration one started from.
`selected_item` is a `uint32_t` value. -/
theorem C9_toggle_alert_modes (state : SpecterSignalState)
    (hview : state.current_view = ViewConfig) (h32 : state.selected_item < 2 ^ 32) :
    (state.selected_item = state.config.num_frequencies + 1 →
      (∀ prompt key, key = InputKeyLeft ∨ key = InputKeyRight →
        specter_signal_process_input prompt state { type := InputTypeShort, key := key }
          = ({ state with
                settings_changed := true
                config := { state.config with
                  visual_alert := !state.config.visual_alert } }, [])) ∧
      (∀ prompt1 prompt2 key1 key2, key1 = InputKeyLeft ∨ key1 = InputKeyRight →
        key2 = InputKeyLeft ∨ key2 = InputKeyRight →
        (specter_signal_process_input prompt2
          (specter_signal_process_input prompt1 state
            { type := InputTypeShort, key := key1 }).1
          { type := InputTypeShort, key := key2 }).1.config = state.config)) ∧
    (state.selected_item = state.config.num_frequencies + 2 →
      (∀ prompt key, key = InputKeyLeft ∨ key = InputKeyRight →
        specter_signal_process_input prompt state { type := InputTypeShort, key := key }
          = ({ state with
                settings_changed := true
                config := { state.config with
                  vibration_alert := !state.config.vibration_alert } }, [])) ∧
      (∀ prompt1 prompt2 key1 key2, key1 = InputKeyLeft ∨ key1 = InputKeyRight →
        key2 = InputKeyLeft ∨ key2 = InputKeyRight →
        (specter_signal_process_input prompt2
          (specter_signal_process_input prompt1 state
            { type := InputTypeShort, key := key1 }).1
          { type := InputTypeShort, key := key2 }).1.config = state.config)) := by
  refine ⟨fun hsel => ⟨?_, ?_⟩, fun hsel => ⟨?_, ?_⟩⟩
  · intro prompt key hkey
    exact process_input_toggle_visual prompt state key hkey hview hsel h32
  · intro prompt1 prompt2 key1 key2 hk1 hk2
    rw [process_input_toggle_visual prompt1 state key1 hk1 hview hsel h32]
    have h2 := process_input_toggle_visual prompt2
      { state with
        settings_changed := true
        config := { state.config with visual_alert := !state.config.visual_alert } }
      key2 hk2 hview hsel h32
    refine (congrArg (fun r => r.1.config) h2).trans ?_
    obtain ⟨v, c, sig, al, sel, idx, ch⟩ := state
    obtain ⟨fr, n, th, vis, vib⟩ := c
    simp
  · intro prompt key hkey
    exact process_input_toggle_vibration prompt state key hkey hview hsel h32
  · intro prompt1 prompt2 key1 key2 hk1 hk2
    rw [process_input_toggle_vibration prompt1 state key1 hk1 hview hsel h32]
    have h2 := process_input_toggle_vibration prompt2
      { state with
        settings_changed := true
        config := { state.config with vibration_alert := !state.config.vibration_alert } }
      key2 hk2 hview hsel h32
    refine (congrArg (fun r => r.1.config) h2).trans ?_
    obtain ⟨v, c, sig, al, sel, idx, ch⟩ := state
    obtain ⟨fr, n, th, vis, vib⟩ := c
    simp

/-- C9 at the default configuration: Left on VisualAlert switches it off,
and Right then Left on VibrationAlert give back the configuration. -/
theorem C9_toggle_alert_modes_witness :
    (specter_signal_process_input false (state_config_cursor 3)
        { type := InputTypeShort, key := InputKeyLeft }).1.config.visual_alert = false ∧
    (specter_signal_process_input false
        (specter_signal_process_input false (state_config_cursor 4)
          { type := InputTypeShort, key := InputKeyRight }).1
        { type := InputTypeShort, key := InputKeyLeft }).1.config
      = (state_config_cursor 4).config :=
  ⟨by rw [((C9_toggle_alert_modes (state_config_cursor 3) rfl (by decide)).1 rfl).1
        false InputKeyLeft (Or.inl rfl)]; rfl,
   ((C9_toggle_alert_modes (state_config_cursor 4) rfl (by decide)).2 rfl).2
      false false InputKeyRight InputKeyLeft (Or.inr rfl) (Or.inl rfl)⟩

/-- C10: in Config view with the cursor on the Back item
(`selected_item == num_frequencies + 3`), a short Left or Right changes no
configuration field and leaves view and cursor as they were, yet sets the dirty
flag; a following exit from Config view (short Back, or short OK, the cursor
being on Back) then shows the save-confirmation dialog once, whatever the flag
was before, and an affirmative answer saves the unchanged configuration. -/
theorem C10_left_right_on_back_marks_dirty (state : SpecterSignalState)
    (hview : state.current_view = ViewConfig)
    (hsel : state.selected_item = state.config.num_frequencies + 3)
    (h32 : state.selected_item < 2 ^ 32) :
    ∀ prompt key, key = InputKeyLeft ∨ key = InputKeyRight →
      specter_signal_process_input prompt state { type := InputTypeShort, key := key }
        = ({ state with settings_changed := true }, []) ∧
      (∀ prompt2 key2, key2 = InputKeyBack ∨ key2 = InputKeyOk →
        (specter_signal_process_input prompt2
          (specter_signal_process_input prompt state
            { type := InputTypeShort, key := key }).1
          { type := InputTypeShort, key := key2 }).1.current_view = ViewMain ∧
        prompt_count (specter_signal_process_input prompt2
          (specter_signal_process_input prompt state
            { type := InputTypeShort, key := key }).1
          { type := InputTypeShort, key := key2 }).2 = 1 ∧
        saved_configs (specter_signal_process_input prompt2
          (specter_signal_process_input prompt state
            { type := InputTypeShort, key := key }).1
          { type := InputTypeShort, key := key2 }).2
          = if prompt2 = true then [state.config] else []) := by
  intro prompt key hkey
  have hstep := process_input_left_right_back_item prompt state key hkey hview hsel h32
  refine ⟨hstep, ?_⟩
  intro prompt2 key2 hkey2
  rw [hstep]
  have hu : u32 (state.config.num_frequencies + 3) = state.selected_item := by
    rw [← hsel]
    exact u32_of_lt _ h32
  have hb := process_input_back prompt2 { state with settings_changed := true } hview
  have ho := process_input_ok prompt2 { state with settings_changed := true } hview
  simp only [hu, if_true] at ho
  rcases hkey2 with h | h <;> subst h
  · refine ⟨congrArg (fun r => r.1.current_view) hb, ?_, ?_⟩
    · refine (congrArg (fun r => prompt_count r.2) hb).trans ?_
      rw [prompt_count_prompt_and_save]
      simp
    · refine (congrArg (fun r => saved_configs r.2) hb).trans ?_
      rw [saved_configs_prompt_and_save]
      simp
  · refine ⟨congrArg (fun r => r.1.current_view) ho, ?_, ?_⟩
    · refine (congrArg (fun r => prompt_count r.2) ho).trans ?_
      rw [prompt_count_prompt_and_save]
      simp
    · refine (congrArg (fun r => saved_configs r.2) ho).trans ?_
      rw [saved_configs_prompt_and_save]
      simp

/-- C10 at the default configuration with the cursor on Back and nothing
edited: Right sets the flag only, and Back then shows the dialog. -/
theorem C10_left_right_on_back_marks_dirty_witness :
    specter_signal_process_input false (state_config_cursor 5)
        { type := InputTypeShort, key := InputKeyRight }
      = ({ state_config_cursor 5 with settings_changed := true }, []) ∧
    prompt_count (specter_signal_process_input false
        (specter_signal_process_input false (state_config_cursor 5)
          { type := InputTypeShort, key := InputKeyRight }).1
        { type := InputTypeShort, key := InputKeyBack }).2 = 1 :=
  ⟨(C10_left_right_on_back_marks_dirty (state_config_cursor 5) rfl rfl (by decide)
      false InputKeyRight (Or.inr rfl)).1,
   ((C10_left_right_on_back_marks_dirty (state_config_cursor 5) rfl rfl (by decide)
      false InputKeyRight (Or.inr rfl)).2 false InputKeyBack (Or.inl rfl)).2.1⟩

/-! ## Configuration loading -/

theorem load_config_absent (config : SpecterSignalConfig)
    (hlen : config.frequencies.length = MAX_FREQUENCIES) :
    is_default_config (specter_signal_app_load_config config none) := by
  obtain ⟨fr, n, th, vis, vib⟩ := config
  simp only [MAX_FREQUENCIES] at hlen
  match fr, hlen with
  | [a, b, c, d, e], _ =>
    simp [is_default_config, specter_signal_app_load_config]

/-- C7 on the code: with no configuration file the loader yields the default
configuration; with a file that opens but whose `Threshold` entry does not
decode, the threshold keeps the content of the allocated block (`0.0` here)
instead of the default `-60.0`, so that a first tick with a sample of `-55.0`
raises no alert where the default configuration raises one; with a file of
which nothing decodes, the whole configuration is the content of the allocated
block, not the default. -/
theorem C7_load_config_decode_failure :
    is_default_config (specter_signal_app_load_config config_memory_zero none) ∧
    (specter_signal_app_load_config config_memory_zero
        (some config_file_bad_threshold)).threshold = F32.zero ∧
    ¬ is_default_config (specter_signal_app_load_config config_memory_zero
        (some config_file_bad_threshold)) ∧
    specter_signal_app_load_config config_memory_zero (some config_file_unreadable)
      = config_memory_zero ∧
    ¬ is_default_config (specter_signal_app_load_config config_memory_zero
        (some config_file_unreadable)) ∧
    (specter_signal_app_tick (F32.fin true 55 0)
      (specter_signal_app_init state_memory_zero none)).1.alert_active = true ∧
    (specter_signal_app_tick (F32.fin true 55 0)
      (specter_signal_app_init state_memory_zero
        (some config_file_bad_threshold))).1.alert_active = false := by
  decide

/-- C8 fails as stated: with `n = 2`, the cursor on Threshold and the threshold
`16777215.0`, three short Right presses leave the threshold at `16777216.0`,
which is `1.0` and not `3.0` above the prior value, although `16777218.0` is a
binary32 value: the second and third additions round back to `2^24`. -/
theorem C8_three_rights_not_exact :
    state_config_threshold_big.current_view = ViewConfig ∧
    state_config_threshold_big.selected_item
      = state_config_threshold_big.config.num_frequencies ∧
    F32.wf state_config_threshold_big.config.threshold = true ∧
    F32.toRat state_config_threshold_big.config.threshold = some 16777215 ∧
    (press_right_three_times false state_config_threshold_big).config.threshold
      = F32.fin false 8388608 1 ∧
    F32.toRat (press_right_three_times false state_config_threshold_big).config.threshold
      = some 16777216 ∧
    F32.toRat (press_right_three_times false state_config_threshold_big).config.threshold
      ≠ some (16777215 + 3) ∧
    F32.wf (F32.fin false 8388609 1) = true ∧
    F32.toRat (F32.fin false 8388609 1) = some (16777215 + 3) := by
  have h : (press_right_three_times false state_config_threshold_big).config.threshold
      = F32.fin false 8388608 1 := by decide
  refine ⟨rfl, rfl, by decide, ?_, h, ?_, ?_, by decide, ?_⟩
  · simp only [state_config_threshold_big, F32.toRat, Bool.false_eq_true, if_false,
      Option.some.injEq]
    norm_num
  · rw [h]
    simp only [F32.toRat, Bool.false_eq_true, if_false, Option.some.injEq]
    norm_num
  · rw [h]
    simp only [F32.toRat, Bool.false_eq_true, if_false, ne_eq, Option.some.injEq]
    norm_num
  · simp only [F32.toRat, Bool.false_eq_true, if_false, Option.some.injEq]
    norm_num

/-- C8, amended: in Config view with the cursor on the Threshold item
(`selected_item == num_frequencies`), each short Right replaces the threshold
by the binary32 sum `threshold + 1.0f` and each short Left by the binary32
difference `threshold - 1.0f`, sets the dirty flag, and changes no other field
nor the cursor nor the view, and makes no call; three Rights in a row leave
the threshold at `((threshold + 1.0f) + 1.0f) + 1.0f`.  These results are exact
on integers: if the prior threshold is an integer `k` with
`-2^24 ≤ k ≤ 2^24 - 3`, three Rights leave it at exactly `k + 3`; one Right
gives exactly `k + 1` when `-2^24 ≤ k + 1 ≤ 2^24`, one Left exactly `k - 1`
when `-2^24 ≤ k - 1 ≤ 2^24`. -/
theorem C8_threshold_adjustment (prompt : Bool) (state : SpecterSignalState)
    (hview : state.current_view = ViewConfig)
    (hsel : state.selected_item = state.config.num_frequencies) :
    specter_signal_process_input prompt state { type := InputTypeShort, key := InputKeyRight }
      = ({ state with
            settings_changed := true
            config := { state.config with
              threshold := F32.add state.config.threshold F32.one } }, []) ∧
    specter_signal_process_input prompt state { type := InputTypeShort, key := InputKeyLeft }
      = ({ state with
            settings_changed := true
            config := { state.config with
              threshold := F32.sub state.config.threshold F32.one } }, []) ∧
    press_right_three_times prompt state
      = { state with
          settings_changed := true
          config := { state.config with
            threshold :=
              F32.add (F32.add (F32.add state.config.threshold F32.one) F32.one) F32.one } } ∧
    (∀ k : Int, F32.toRat state.config.threshold = some (k : ℚ) →
      (-2 ^ 24 ≤ k → k ≤ 2 ^ 24 - 3 →
        F32.toRat (press_right_three_times prompt state).config.threshold
          = some ((k : ℚ) + 3)) ∧
      (-2 ^ 24 ≤ k + 1 → k + 1 ≤ 2 ^ 24 →
        F32.toRat (specter_signal_process_input prompt state
            { type := InputTypeShort, key := InputKeyRight }).1.config.threshold
          = some ((k : ℚ) + 1)) ∧
      (-2 ^ 24 ≤ k - 1 → k - 1 ≤ 2 ^ 24 →
        F32.toRat (specter_signal_process_input prompt state
            { type := InputTypeShort, key := InputKeyLeft }).1.config.threshold
          = some ((k : ℚ) - 1))) := by
  have hR := process_input_right_threshold prompt state hview hsel
  have hL := process_input_left_threshold prompt state hview hsel
  have h3 : press_right_three_times prompt state
      = { state with
          settings_changed := true
          config := { state.config with
            threshold :=
              F32.add (F32.add (F32.add state.config.threshold F32.one) F32.one) F32.one } } := by
    unfold press_right_three_times
    rw [hR]
    have hR2 := process_input_right_threshold prompt
      { state with
        settings_changed := true
        config := { state.config with
          threshold := F32.add state.config.threshold F32.one } } hview hsel
    have hR3 := process_input_right_threshold prompt
      { state with
        settings_changed := true
        config := { state.config with
          threshold := F32.add (F32.add state.config.threshold F32.one) F32.one } } hview hsel
    refine (congrArg (fun r => (specter_signal_process_input prompt r.1
      { type := InputTypeShort, key := InputKeyRight }).1) hR2).trans ?_
    exact congrArg (fun r => r.1) hR3
  refine ⟨hR, hL, h3, ?_⟩
  intro k hk
  refine ⟨?_, ?_, ?_⟩
  · intro h1 h2
    rw [h3]
    have a1 := F32.add_one_exact _ k hk (by omega) (by omega)
    have a2 := F32.add_one_exact _ (k + 1) a1 (by omega) (by omega)
    have a3 := F32.add_one_exact _ (k + 1 + 1) a2 (by omega) (by omega)
    show F32.toRat
      (F32.add (F32.add (F32.add state.config.threshold F32.one) F32.one) F32.one) = _
    rw [a3]
    push_cast
    congr 1
    ring
  · intro h1 h2
    rw [hR]
    show F32.toRat (F32.add state.config.threshold F32.one) = _
    rw [F32.add_one_exact _ k hk h1 h2]
    push_cast
    rfl
  · intro h1 h2
    rw [hL]
    show F32.toRat (F32.sub state.config.threshold F32.one) = _
    rw [F32.sub_one_exact _ k hk h1 h2]
    push_cast
    rfl

theorem toRat_cm60 : F32.toRat F32.cm60 = some (((-60 : Int) : ℚ)) := by
  simp only [F32.toRat, F32.cm60, if_true, Option.some.injEq]
  norm_num

/-- C8, amended, at the scenario of the specification: `n = 2`, cursor on item
`2`, threshold `-60.0`; three Rights leave the threshold at exactly `-57.0`
and the dirty flag set. -/
theorem C8_threshold_adjustment_witness :
    F32.toRat (press_right_three_times false (state_config_cursor 2)).config.threshold
      = some ((((-60 : Int) : ℚ)) + 3) ∧
    (press_right_three_times false (state_config_cursor 2)).settings_changed = true :=
  ⟨((C8_threshold_adjustment false (state_config_cursor 2) rfl rfl).2.2.2 (-60) toRat_cm60).1
      (by norm_num) (by norm_num),
   by rw [(C8_threshold_adjustment false (state_config_cursor 2) rfl rfl).2.2.1]⟩

